import Mathlib

/-!
Verification of the event-matching and notification-broadcast core of the
lite-rpc bridge (source: src/context.rs).  The Rust code is shallowly
embedded: pure data becomes Lean structures, the body of one iteration of
`LiteRpcSubsrciptionControl::start_broadcasting` becomes a step function,
external calls (the crossbeam `recv`, `serde_json::to_string`, the tokio
broadcast `send`, and the upstream `RpcClient` queries) become explicit
parameters or `Except`-valued inputs, and a Rust panic (`unwrap` on an
error) is represented by an explicit `panicked` outcome / `Except.error`.
-/

namespace LiteRpc

/-- Commitment levels (solana_sdk::commitment_config::CommitmentLevel),
restricted to the tiers this code distinguishes. -/
inductive CommitmentLevel
  | Processed
  | Confirmed
  | Finalized
deriving DecidableEq

/-- solana_sdk::commitment_config::CommitmentConfig. -/
structure CommitmentConfig where
  commitment : CommitmentLevel
deriving DecidableEq

/-- context.rs lines 57-62: `SignatureNotification`. -/
structure SignatureNotification where
  signature : String
  commitment : CommitmentLevel
  slot : Nat
  error : Option String
deriving DecidableEq

/-- context.rs lines 64-67: `NotificationType`. -/
inductive NotificationType
  | Signature (data : SignatureNotification)
  | Slot (slot : Nat)
deriving DecidableEq

/-- solana_rpc::rpc_subscription_tracker::SignatureSubscriptionParams. -/
structure SignatureSubscriptionParams where
  commitment : CommitmentConfig
  signature : String
  enable_received_notification : Bool
deriving DecidableEq

/-- solana_rpc::rpc_subscription_tracker::SubscriptionParams, restricted to
the variants this code can put in or look up from its registry. -/
inductive SubscriptionParams
  | Signature (p : SignatureSubscriptionParams)
  | Slot
deriving DecidableEq

/-- The registry `subscriptions : DashMap<SubscriptionParams, SubscriptionId>`
modelled as an association list (SubscriptionId is a u64, modelled as Nat). -/
abbrev Subscriptions := List (SubscriptionParams × Nat)

/-- Map lookup on the modelled DashMap. -/
def lookupSub : Subscriptions → SubscriptionParams → Option Nat
  | [], _ => none
  | (k, v) :: rest, key => if k = key then some v else lookupSub rest key

/-- A JSON value; this models the JSON document that
`serde_json::to_string` renders for the notification. -/
inductive Json
  | null
  | str (s : String)
  | num (n : Nat)
  | obj (fields : List (String × Json))

/-- Field lookup in a list of JSON object fields. -/
def lookupField : List (String × Json) → String → Option Json
  | [], _ => none
  | (k, v) :: rest, key => if k = key then some v else lookupField rest key

/-- Field access on a JSON object. -/
def Json.getField : Json → String → Option Json
  | Json.obj fields, key => lookupField fields key
  | _, _ => none

/-- solana_client::rpc_response::ReceivedSignatureResult. -/
inductive ReceivedSignatureResult
  | ReceivedSignature

/-- solana_client::rpc_response::RpcSignatureResult (untagged serde enum). -/
inductive RpcSignatureResult
  | ProcessedSignature (err : Option String)
  | ReceivedSignature (r : ReceivedSignatureResult)

/-- context.rs lines 118-121: `RpcNotificationContext`. -/
structure RpcNotificationContext where
  slot : Nat

/-- context.rs lines 96-100: `RpcNotificationResponse`. -/
structure RpcNotificationResponse (T : Type) where
  context : RpcNotificationContext
  value : T

/-- solana_client::rpc_response::RpcResponseContext: `slot` plus an
`api_version` that serde skips when `None`. -/
structure RpcResponseContext where
  slot : Nat
  api_version : Option String

/-- context.rs lines 89-93: `Response`. -/
structure Response (T : Type) where
  context : RpcResponseContext
  value : T

/-- context.rs lines 102-116: the `From<RpcNotificationResponse<T>>`
implementation for `Response<T>` (api_version is set to None). -/
def Response.ofNotificationResponse {T : Type} (n : RpcNotificationResponse T) : Response T :=
  { context := { slot := n.context.slot, api_version := none }, value := n.value }

/-- context.rs lines 70-74: `NotificationParams`. -/
structure NotificationParams (T : Type) where
  result : T
  subscription : Nat

/-- jsonrpc_core::Version as used here. -/
inductive JsonrpcVersion
  | V2

/-- context.rs lines 76-81: `Notification`. -/
structure Notification (T : Type) where
  jsonrpc : Option JsonrpcVersion
  method : String
  params : NotificationParams T

/-- serde serialization of `Option<jsonrpc_core::Version>`. -/
def jsonrpcVersionToJson : Option JsonrpcVersion → Json
  | some JsonrpcVersion.V2 => Json.str "2.0"
  | none => Json.null

/-- serde serialization of `RpcSignatureResult` (untagged; the unit variant
`ReceivedSignature` renders as the camelCase string). -/
def rpcSignatureResultToJson : RpcSignatureResult → Json
  | RpcSignatureResult.ProcessedSignature none => Json.obj [("err", Json.null)]
  | RpcSignatureResult.ProcessedSignature (some e) => Json.obj [("err", Json.str e)]
  | RpcSignatureResult.ReceivedSignature ReceivedSignatureResult.ReceivedSignature =>
      Json.str "receivedSignature"

/-- serde serialization of `RpcResponseContext` (camelCase; `api_version`
is skipped when `None`). -/
def rpcResponseContextToJson (c : RpcResponseContext) : Json :=
  Json.obj (("slot", Json.num c.slot) ::
    (match c.api_version with
     | none => []
     | some v => [("apiVersion", Json.str v)]))

/-- serde serialization of `Response<RpcSignatureResult>`. -/
def responseToJson (r : Response RpcSignatureResult) : Json :=
  Json.obj [("context", rpcResponseContextToJson r.context),
            ("value", rpcSignatureResultToJson r.value)]

/-- serde serialization of `Notification<Response<RpcSignatureResult>>`,
following the derive order of the struct fields. -/
def notificationToJson (n : Notification (Response RpcSignatureResult)) : Json :=
  Json.obj [("jsonrpc", jsonrpcVersionToJson n.jsonrpc),
            ("method", Json.str n.method),
            ("params", Json.obj [("result", responseToJson n.params.result),
                                 ("subscription", Json.num n.params.subscription)])]

/-- context.rs lines 124-130: `LiteRpcNotification`.  The Rust `json` field
holds the serde-rendered string; it is modelled by the JSON document it
denotes.  `created_at : Instant` is modelled as a Nat timestamp. -/
structure LiteRpcNotification where
  subscription_id : Nat
  is_final : Bool
  json : Json
  created_at : Nat

/-- context.rs lines 151-157: the `SignatureSubscriptionParams` value the
dispatcher builds from an incoming `SignatureNotification`. -/
def sigSubscriptionParams (data : SignatureNotification) : SignatureSubscriptionParams :=
  { commitment := { commitment := data.commitment },
    signature := data.signature,
    enable_received_notification := false }

/-- context.rs lines 164-179: the notification document the dispatcher
builds for a matched signature event and hands to `serde_json::to_string`:
the received-signature marker wrapped in a `Response` at the observed slot,
wrapped in a `Notification` with jsonrpc 2.0 and the fixed method name. -/
def signatureUpdateJson (slot subscription_id : Nat) : Json :=
  notificationToJson
    { jsonrpc := some JsonrpcVersion.V2,
      method := "signatureSubscription",
      params :=
        { result := Response.ofNotificationResponse
            { context := { slot := slot },
              value := RpcSignatureResult.ReceivedSignature
                  ReceivedSignatureResult.ReceivedSignature },
          subscription := subscription_id } }

/-- context.rs lines 150-191: handling of `NotificationType::Signature`.
`ser` stands for `serde_json::to_string` (an external call returning
`Result`); the code unwraps its result, so a serialization error becomes
`Except.error` (a panic).  The registry is returned: the `Occupied` branch
reads the entry, the `Vacant` branch inserts nothing, so it comes back
unchanged on both paths. -/
def processSignature (ser : Json → Except String Json) (subs : Subscriptions)
    (data : SignatureNotification) (now : Nat) :
    Subscriptions × Except String (Option LiteRpcNotification) :=
  match lookupSub subs (SubscriptionParams.Signature (sigSubscriptionParams data)) with
  | some subscription_id =>
      match ser (signatureUpdateJson data.slot subscription_id) with
      | Except.ok json =>
          (subs, Except.ok (some
            { subscription_id := subscription_id,
              is_final := false,
              json := json,
              created_at := now }))
      | Except.error e => (subs, Except.error e)
  | none => (subs, Except.ok none)

/-- context.rs lines 149-197: dispatch on the received `NotificationType`.
The `Slot` arm (lines 193-196) produces `None` and touches nothing. -/
def processEvent (ser : Json → Except String Json) (subs : Subscriptions)
    (nt : NotificationType) (now : Nat) :
    Subscriptions × Except String (Option LiteRpcNotification) :=
  match nt with
  | NotificationType.Signature data => processSignature ser subs data now
  | NotificationType.Slot _ => (subs, Except.ok none)

/-- context.rs lines 12-17: `BlockInformation`.  In the source the fields
are wrapped in `RwLock<String>` / `AtomicU64`; the wrappers only make each
field individually atomic, which is modelled by the per-field access
actions below. -/
structure BlockInformation where
  block_hash : String
  block_height : Nat
  slot : Nat
  confirmation_level : CommitmentLevel
deriving DecidableEq

/-- context.rs lines 38-42: `LiteRpcContext` (the `HashMap` behind the
`RwLock` is modelled as an association list). -/
structure LiteRpcContext where
  signature_status : List (String × Option CommitmentLevel)
  finalized_block_info : BlockInformation
  confirmed_block_info : BlockInformation

/-- The state the dispatcher task can reach: its own registry
(`LiteRpcSubsrciptionControl.subscriptions`) adjoined with the process-wide
`LiteRpcContext`.  `start_broadcasting` holds no reference to the context;
threading it through the step function makes that frame condition a
statable fact. -/
structure DispatcherState where
  subscriptions : Subscriptions
  context : LiteRpcContext

/-- Outcome of one iteration of the `start_broadcasting` loop. -/
inductive StepOutcome
  | continued (published : Option LiteRpcNotification) (logged : Option String)
  | panicked (message : String)
  | exited

/-- context.rs line 203: the message printed when `recv` returns an error. -/
def recvErrorLog (e : String) : String :=
  "LiteRpcSubsrciptionControl notification channel recieved error " ++ e

/-- The panic raised by `.unwrap()` on the error `broadcast::Sender::send`
returns when no receiver is attached (context.rs line 199). -/
def sendUnwrapPanic : String :=
  "called Result::unwrap on an Err value: SendError"

/-- context.rs lines 144-207: the body of one iteration of
`start_broadcasting`.  `recv` is the result of the crossbeam `recv()`
(`Except.error` when the channel is closed); `receiver_count` is the number
of consumers attached to the tokio broadcast channel, whose `send` fails
exactly when it is zero; the code unwraps that result, so zero receivers
means a panic.  An `Err` from `recv` is printed and the loop continues:
no branch of the match leaves the loop, so the `exited` outcome is never
produced. -/
def broadcastIteration (ser : Json → Except String Json) (st : DispatcherState)
    (recv : Except String NotificationType) (receiver_count now : Nat) :
    DispatcherState × StepOutcome :=
  match recv with
  | Except.ok nt =>
      match processEvent ser st.subscriptions nt now with
      | (subs2, Except.ok (some env)) =>
          if receiver_count = 0 then
            ({ st with subscriptions := subs2 }, StepOutcome.panicked sendUnwrapPanic)
          else
            ({ st with subscriptions := subs2 }, StepOutcome.continued (some env) none)
      | (subs2, Except.ok none) =>
          ({ st with subscriptions := subs2 }, StepOutcome.continued none none)
      | (subs2, Except.error e) =>
          ({ st with subscriptions := subs2 }, StepOutcome.panicked e)
  | Except.error e => (st, StepOutcome.continued none (some (recvErrorLog e)))

/-- The registry key an inbound event is matched against: for a signature
event the key built on context.rs lines 151-159, for a slot event the
reserved slot-subscription key. -/
def eventKey : NotificationType → SubscriptionParams
  | NotificationType.Signature data => SubscriptionParams.Signature (sigSubscriptionParams data)
  | NotificationType.Slot _ => SubscriptionParams.Slot

/-- `serde_json::to_string` succeeding, as it does on every value this
code serializes; the failure case is exercised by instantiating the `ser`
parameter differently. -/
def serializeOk : Json → Except String Json := fun j => Except.ok j

/-- The upstream node client (solana RpcClient), reduced to the two
queries `BlockInformation::new` performs; each may fail. -/
structure RpcClient where
  get_slot_with_commitment : CommitmentConfig → Except String Nat
  get_latest_blockhash_with_commitment : CommitmentConfig → Except String (String × Nat)

/-- context.rs lines 19-36: `BlockInformation::new`.  The slot query is
performed and unwrapped first, then the blockhash/height query; an
`unwrap` on an `Err` is a panic, modelled by propagating `Except.error`,
so neither failure can yield a partially built value. -/
def BlockInformation.new (rpc_client : RpcClient) (commitment : CommitmentLevel) :
    Except String BlockInformation :=
  match rpc_client.get_slot_with_commitment { commitment := commitment } with
  | Except.error e => Except.error e
  | Except.ok slot =>
      match rpc_client.get_latest_blockhash_with_commitment { commitment := commitment } with
      | Except.error e => Except.error e
      | Except.ok (blockhash, blockheight) =>
          Except.ok
            { block_hash := blockhash,
              block_height := blockheight,
              slot := slot,
              confirmation_level := commitment }

/-- The `is_final` flag of the envelope a processing result publishes,
when it publishes one. -/
def publishedIsFinal :
    Subscriptions × Except String (Option LiteRpcNotification) → Option Bool
  | (_, Except.ok (some env)) => some env.is_final
  | _ => none

/-- A concrete `LiteRpcContext`, used to instantiate closed statements. -/
def sampleContext : LiteRpcContext :=
  { signature_status := [],
    finalized_block_info :=
      { block_hash := "fhash", block_height := 10, slot := 100,
        confirmation_level := CommitmentLevel.Finalized },
    confirmed_block_info :=
      { block_hash := "chash", block_height := 11, slot := 101,
        confirmation_level := CommitmentLevel.Confirmed } }

/-! ### Field-wise access model for `BlockInformation`

The struct at context.rs lines 12-17 synchronizes each field separately
(`RwLock<String>`, `AtomicU64`, `AtomicU64`); there is no lock covering the
triple.  The readers and the updater of the cache are not part of the files
under verification, so their access pattern is taken from the spec. -/

/-- One individually-atomic access to the separately synchronized fields
of a `BlockInformation`. -/
inductive BlockAccess
  | writeHash (v : String)
  | writeHeight (v : Nat)
  | writeSlot (v : Nat)
  | readHash
  | readHeight
  | readSlot

/-- What a reader has observed so far of the three fields. -/
structure ReadAcc where
  hash : Option String
  height : Option Nat
  slot : Option Nat
deriving DecidableEq

/-- Effect of one atomic access on the shared fields and on the reader's
observations. -/
def applyAccess (st : BlockInformation) (acc : ReadAcc) :
    BlockAccess → BlockInformation × ReadAcc
  | BlockAccess.writeHash v => ({ st with block_hash := v }, acc)
  | BlockAccess.writeHeight v => ({ st with block_height := v }, acc)
  | BlockAccess.writeSlot v => ({ st with slot := v }, acc)
  | BlockAccess.readHash => (st, { acc with hash := some st.block_hash })
  | BlockAccess.readHeight => (st, { acc with height := some st.block_height })
  | BlockAccess.readSlot => (st, { acc with slot := some st.slot })

/-- Run a sequence of atomic accesses. -/
def runAccesses : List BlockAccess → BlockInformation → ReadAcc →
    BlockInformation × ReadAcc
  | [], st, acc => (st, acc)
  | a :: rest, st, acc =>
      runAccesses rest (applyAccess st acc a).1 (applyAccess st acc a).2

/-- Modelled from the spec: the cache updater (not under src/) writes the
three fields of the snapshot through the three independent synchronized
primitives, field by field (spec section 9: "three independently
synchronized primitives", "independently-updatable hash/height/slot
fields"). -/
def updateAccesses (b : BlockInformation) : List BlockAccess :=
  [BlockAccess.writeHash b.block_hash,
   BlockAccess.writeHeight b.block_height,
   BlockAccess.writeSlot b.slot]

/-- Modelled from the spec: a cache reader (not under src/) loads the three
fields, each load individually synchronized by that field's primitive. -/
def readAccesses : List BlockAccess :=
  [BlockAccess.readHash, BlockAccess.readHeight, BlockAccess.readSlot]

/-- Interleave two threads' access sequences; the boolean schedule picks
which thread performs the next access (`true` = first sequence). -/
def interleave {α : Type} : List Bool → List α → List α → List α
  | [], xs, ys => xs ++ ys
  | _ :: _, [], ys => ys
  | _ :: _, x :: xs, [] => x :: xs
  | true :: bs, x :: xs, y :: ys => x :: interleave bs xs (y :: ys)
  | false :: bs, x :: xs, y :: ys => y :: interleave bs (x :: xs) ys

/-- The snapshot a reader observes when its three loads are interleaved,
under schedule `sched`, with an updater that installs `u1` and then `u2`
on top of the initial contents `init`. -/
def observedSnapshot (sched : List Bool) (init u1 u2 : BlockInformation) : ReadAcc :=
  (runAccesses
      (interleave sched (updateAccesses u1 ++ updateAccesses u2) readAccesses)
      init { hash := none, height := none, slot := none }).2

/-- The observation a reader would make of a single consistent
`BlockInformation` snapshot. -/
def snapshotRead (b : BlockInformation) : ReadAcc :=
  { hash := some b.block_hash, height := some b.block_height, slot := some b.slot }

/-- Concrete initial block contents, used to instantiate closed statements. -/
def blockA : BlockInformation :=
  { block_hash := "h0", block_height := 0, slot := 0,
    confirmation_level := CommitmentLevel.Confirmed }

/-- Concrete contents of a first update, for closed statements. -/
def blockB : BlockInformation :=
  { block_hash := "h1", block_height := 1, slot := 1,
    confirmation_level := CommitmentLevel.Confirmed }

/-- Concrete contents of a second update, for closed statements. -/
def blockC : BlockInformation :=
  { block_hash := "h2", block_height := 2, slot := 2,
    confirmation_level := CommitmentLevel.Confirmed }

/-! ### Theorems -/

/-- C1 counterexample: a `SignatureObserved` event at the terminal
(`Finalized`) level that matches a registered subscription is published
with `is_final = false`, not `true` as the claim states (the dispatcher
hard-codes `is_final: false` at context.rs line 184). -/
theorem signature_is_final_counterexample :
    publishedIsFinal (processEvent serializeOk
      [(SubscriptionParams.Signature
          { commitment := { commitment := CommitmentLevel.Finalized },
            signature := "sigA",
            enable_received_notification := false }, 7)]
      (NotificationType.Signature
        { signature := "sigA", commitment := CommitmentLevel.Finalized,
          slot := 42, error := none }) 0) = some false := rfl

/-- C1 (amended): every envelope the dispatcher publishes for a matched
`SignatureObserved` event has `is_final = false`, at every commitment
level including the terminal one. -/
theorem signature_envelope_never_final (ser : Json → Except String Json)
    (subs res : Subscriptions) (data : SignatureNotification) (now : Nat)
    (env : LiteRpcNotification)
    (h : processEvent ser subs (NotificationType.Signature data) now =
      (res, Except.ok (some env))) :
    env.is_final = false := by
  simp only [processEvent, processSignature] at h
  split at h
  · split at h
    · simp only [Prod.mk.injEq, Except.ok.injEq, Option.some.injEq] at h
      rw [← h.2]
    · simp at h
  · simp at h

/-- C1 witness: the amended statement applied at a matched finalized
event. -/
theorem signature_envelope_never_final_witness :
    ({ subscription_id := 7, is_final := false,
       json := signatureUpdateJson 42 7, created_at := 0 } :
      LiteRpcNotification).is_final = false :=
  signature_envelope_never_final serializeOk
    [(SubscriptionParams.Signature
        { commitment := { commitment := CommitmentLevel.Finalized },
          signature := "sigA",
          enable_received_notification := false }, 7)]
    [(SubscriptionParams.Signature
        { commitment := { commitment := CommitmentLevel.Finalized },
          signature := "sigA",
          enable_received_notification := false }, 7)]
    { signature := "sigA", commitment := CommitmentLevel.Finalized,
      slot := 42, error := none }
    0 _ rfl

/-- C2 counterexample: with a client watching the reserved slot key, a
`SlotAdvanced` event still produces no envelope at all (the `Slot` arm at
context.rs lines 193-196 returns `None`), contradicting the claimed
publication of an `is_final = false` envelope. -/
theorem slot_event_counterexample :
    lookupSub [(SubscriptionParams.Slot, 0)] SubscriptionParams.Slot = some 0 ∧
    (broadcastIteration serializeOk
        { subscriptions := [(SubscriptionParams.Slot, 0)], context := sampleContext }
        (Except.ok (NotificationType.Slot 5)) 1 0).2 =
      StepOutcome.continued none none :=
  ⟨rfl, rfl⟩

/-- C2 (amended): on a `SlotAdvanced` event the dispatcher publishes
nothing and changes nothing, regardless of any watchers of the reserved
slot key: slot notifications are unimplemented. -/
theorem slot_event_publishes_nothing (ser : Json → Except String Json)
    (st : DispatcherState) (slot rc now : Nat) :
    broadcastIteration ser st (Except.ok (NotificationType.Slot slot)) rc now =
      (st, StepOutcome.continued none none) := rfl

/-- C3 counterexample: a matched `SignatureObserved` event carrying an
error serializes exactly as the same event with no error, and the payload
value is the received-signature success marker: the error string is
ignored (context.rs lines 165-170 always embed
`ReceivedSignatureResult::ReceivedSignature`). -/
theorem signature_error_ignored_counterexample :
    processEvent serializeOk
      [(SubscriptionParams.Signature
          { commitment := { commitment := CommitmentLevel.Confirmed },
            signature := "sigB",
            enable_received_notification := false }, 5)]
      (NotificationType.Signature
        { signature := "sigB", commitment := CommitmentLevel.Confirmed,
          slot := 9, error := some "InstructionError" }) 0 =
      processEvent serializeOk
        [(SubscriptionParams.Signature
            { commitment := { commitment := CommitmentLevel.Confirmed },
              signature := "sigB",
              enable_received_notification := false }, 5)]
        (NotificationType.Signature
          { signature := "sigB", commitment := CommitmentLevel.Confirmed,
            slot := 9, error := none }) 0 ∧
    (processEvent serializeOk
        [(SubscriptionParams.Signature
            { commitment := { commitment := CommitmentLevel.Confirmed },
              signature := "sigB",
              enable_received_notification := false }, 5)]
        (NotificationType.Signature
          { signature := "sigB", commitment := CommitmentLevel.Confirmed,
            slot := 9, error := some "InstructionError" }) 0).2 =
      Except.ok (some
        { subscription_id := 5, is_final := false,
          json := signatureUpdateJson 9 5, created_at := 0 }) ∧
    Option.bind (Option.bind (Json.getField (signatureUpdateJson 9 5) "params")
        (fun p => Json.getField p "result"))
      (fun r => Json.getField r "value") = some (Json.str "receivedSignature") :=
  ⟨rfl, rfl, rfl⟩

/-- C3 (amended): the dispatcher ignores the event's error field entirely:
processing an event is unchanged by replacing its error with any other
value, and the payload value of the built notification is always the
received-signature marker. -/
theorem signature_payload_ignores_error (ser : Json → Except String Json)
    (subs : Subscriptions) (data : SignatureNotification) (now : Nat)
    (e : Option String) (id : Nat) :
    processEvent ser subs (NotificationType.Signature data) now =
      processEvent ser subs
        (NotificationType.Signature { data with error := e }) now ∧
    Option.bind (Option.bind (Json.getField (signatureUpdateJson data.slot id) "params")
        (fun p => Json.getField p "result"))
      (fun r => Json.getField r "value") = some (Json.str "receivedSignature") :=
  ⟨rfl, rfl⟩

/-- C4: when `recv` reports the ingestion channel closed, the iteration
prints the error and the loop continues (context.rs lines 202-204 have no
`break` or `return`); it does not terminate.  Since a closed crossbeam
channel makes every subsequent `recv` fail immediately, the loop spins
forever instead of shutting down cleanly as the spec requires. -/
theorem closed_channel_loops_forever (ser : Json → Except String Json)
    (st : DispatcherState) (e : String) (rc now : Nat) :
    broadcastIteration ser st (Except.error e) rc now =
      (st, StepOutcome.continued none (some (recvErrorLog e))) ∧
    StepOutcome.continued (Option.none (α := LiteRpcNotification))
        (some (recvErrorLog e)) ≠ StepOutcome.exited :=
  ⟨rfl, fun h => StepOutcome.noConfusion h⟩

/-- C5 counterexample: when serialization fails on a matched event the
dispatcher does not log and drop it; the `unwrap` at context.rs line 180
panics and the loop aborts. -/
theorem serialize_failure_panics_counterexample :
    (broadcastIteration (fun _ => Except.error "serde failure")
        { subscriptions := [(SubscriptionParams.Signature
            { commitment := { commitment := CommitmentLevel.Confirmed },
              signature := "sigC",
              enable_received_notification := false }, 3)],
          context := sampleContext }
        (Except.ok (NotificationType.Signature
          { signature := "sigC", commitment := CommitmentLevel.Confirmed,
            slot := 11, error := none })) 1 0).2 =
      StepOutcome.panicked "serde failure" := rfl

/-- C5 (amended): a failure of `serde_json::to_string` on a matched event
is not logged-and-dropped: the unwrapped error panics and aborts the
dispatcher loop. -/
theorem serialize_failure_aborts_loop (ser : Json → Except String Json)
    (st : DispatcherState) (data : SignatureNotification) (rc now id : Nat)
    (e : String)
    (hmatch : lookupSub st.subscriptions
      (SubscriptionParams.Signature (sigSubscriptionParams data)) = some id)
    (hser : ser (signatureUpdateJson data.slot id) = Except.error e) :
    broadcastIteration ser st
        (Except.ok (NotificationType.Signature data)) rc now =
      (st, StepOutcome.panicked e) := by
  simp only [broadcastIteration, processEvent, processSignature, hmatch, hser]

/-- C5 witness: the amended statement applied at a matched event and a
failing serializer. -/
theorem serialize_failure_aborts_loop_witness :
    broadcastIteration (fun _ => Except.error "serde failure")
        { subscriptions := [(SubscriptionParams.Signature
            { commitment := { commitment := CommitmentLevel.Confirmed },
              signature := "sigC",
              enable_received_notification := false }, 3)],
          context := sampleContext }
        (Except.ok (NotificationType.Signature
          { signature := "sigC", commitment := CommitmentLevel.Confirmed,
            slot := 11, error := none })) 1 0 =
      ({ subscriptions := [(SubscriptionParams.Signature
          { commitment := { commitment := CommitmentLevel.Confirmed },
            signature := "sigC",
            enable_received_notification := false }, 3)],
         context := sampleContext }, StepOutcome.panicked "serde failure") :=
  serialize_failure_aborts_loop (fun _ => Except.error "serde failure")
    { subscriptions := [(SubscriptionParams.Signature
        { commitment := { commitment := CommitmentLevel.Confirmed },
          signature := "sigC",
          enable_received_notification := false }, 3)],
      context := sampleContext }
    { signature := "sigC", commitment := CommitmentLevel.Confirmed,
      slot := 11, error := none }
    1 0 3 "serde failure" rfl rfl

/-- C7: an inbound event with no matching entry in the registry produces
zero envelopes and leaves the whole dispatcher-reachable state — registry,
block-information caches and signature-status table — unchanged; in
particular no subscription entry is created (the `Vacant` arm at
context.rs lines 188-190 inserts nothing). -/
theorem unmatched_event_no_effect (ser : Json → Except String Json)
    (st : DispatcherState) (nt : NotificationType) (rc now : Nat)
    (h : lookupSub st.subscriptions (eventKey nt) = none) :
    broadcastIteration ser st (Except.ok nt) rc now =
      (st, StepOutcome.continued none none) := by
  cases nt with
  | Signature data =>
      simp only [eventKey] at h
      simp only [broadcastIteration, processEvent, processSignature, h]
  | Slot s => rfl

/-- C7 witness: an unmatched signature event against an empty registry. -/
theorem unmatched_event_no_effect_witness :
    broadcastIteration serializeOk
        { subscriptions := [], context := sampleContext }
        (Except.ok (NotificationType.Signature
          { signature := "sigN", commitment := CommitmentLevel.Confirmed,
            slot := 1, error := none })) 1 0 =
      ({ subscriptions := [], context := sampleContext },
        StepOutcome.continued none none) :=
  unmatched_event_no_effect serializeOk
    { subscriptions := [], context := sampleContext }
    (NotificationType.Signature
      { signature := "sigN", commitment := CommitmentLevel.Confirmed,
        slot := 1, error := none })
    1 0 rfl

/-- C8: for a matched `SignatureObserved` event the dispatcher publishes
exactly the serialization of the built notification, a JSON object whose
`jsonrpc` field is the version marker "2.0", whose `method` field is the
fixed string "signatureSubscription", whose `params.result.context.slot`
is the event's observed slot, and whose `params.subscription` is the
`SubscriptionId` the registry holds for the event's key. -/
theorem signature_update_json_shape (subs : Subscriptions)
    (data : SignatureNotification) (now id : Nat)
    (h : lookupSub subs
      (SubscriptionParams.Signature (sigSubscriptionParams data)) = some id) :
    processEvent serializeOk subs (NotificationType.Signature data) now =
      (subs, Except.ok (some
        { subscription_id := id, is_final := false,
          json := signatureUpdateJson data.slot id, created_at := now })) ∧
    Json.getField (signatureUpdateJson data.slot id) "jsonrpc" =
      some (Json.str "2.0") ∧
    Json.getField (signatureUpdateJson data.slot id) "method" =
      some (Json.str "signatureSubscription") ∧
    Option.bind (Option.bind (Option.bind
        (Json.getField (signatureUpdateJson data.slot id) "params")
        (fun p => Json.getField p "result"))
      (fun r => Json.getField r "context"))
      (fun c => Json.getField c "slot") = some (Json.num data.slot) ∧
    Option.bind (Json.getField (signatureUpdateJson data.slot id) "params")
      (fun p => Json.getField p "subscription") = some (Json.num id) := by
  refine ⟨?_, rfl, rfl, rfl, rfl⟩
  simp only [processEvent, processSignature, h, serializeOk]

/-- C8 witness: the statement applied at a registered signature key. -/
theorem signature_update_json_shape_witness :
    processEvent serializeOk
        [(SubscriptionParams.Signature
            { commitment := { commitment := CommitmentLevel.Confirmed },
              signature := "sigW",
              enable_received_notification := false }, 7)]
        (NotificationType.Signature
          { signature := "sigW", commitment := CommitmentLevel.Confirmed,
            slot := 42, error := none }) 0 =
      ([(SubscriptionParams.Signature
          { commitment := { commitment := CommitmentLevel.Confirmed },
            signature := "sigW",
            enable_received_notification := false }, 7)],
        Except.ok (some
          { subscription_id := 7, is_final := false,
            json := signatureUpdateJson 42 7, created_at := 0 })) :=
  (signature_update_json_shape
    [(SubscriptionParams.Signature
        { commitment := { commitment := CommitmentLevel.Confirmed },
          signature := "sigW",
          enable_received_notification := false }, 7)]
    { signature := "sigW", commitment := CommitmentLevel.Confirmed,
      slot := 42, error := none }
    0 7 rfl).1

/-- C9: `BlockInformation::new` returns a value only when both upstream
queries succeeded, and that value is built exactly from their results;
by contraposition a failing query is fatal and no partially built or
default cache is ever returned. -/
theorem block_information_new_requires_upstream (rpc : RpcClient)
    (c : CommitmentLevel) (info : BlockInformation)
    (h : BlockInformation.new rpc c = Except.ok info) :
    ∃ s bh bht,
      rpc.get_slot_with_commitment { commitment := c } = Except.ok s ∧
      rpc.get_latest_blockhash_with_commitment { commitment := c } =
        Except.ok (bh, bht) ∧
      info = { block_hash := bh, block_height := bht, slot := s,
               confirmation_level := c } := by
  unfold BlockInformation.new at h
  split at h
  · simp at h
  · next slot hslot =>
      split at h
      · simp at h
      · next p bh bht heq =>
          refine ⟨slot, bh, bht, hslot, heq, ?_⟩
          simp only [Except.ok.injEq] at h
          rw [← h]

/-- C9 witness: the statement applied to a client whose queries succeed. -/
theorem block_information_new_requires_upstream_witness :
    ∃ s bh bht,
      ({ get_slot_with_commitment := fun _ => Except.ok 100,
         get_latest_blockhash_with_commitment :=
           fun _ => Except.ok ("hash", 50) } :
        RpcClient).get_slot_with_commitment
          { commitment := CommitmentLevel.Confirmed } = Except.ok s ∧
      ({ get_slot_with_commitment := fun _ => Except.ok 100,
         get_latest_blockhash_with_commitment :=
           fun _ => Except.ok ("hash", 50) } :
        RpcClient).get_latest_blockhash_with_commitment
          { commitment := CommitmentLevel.Confirmed } = Except.ok (bh, bht) ∧
      ({ block_hash := "hash", block_height := 50, slot := 100,
         confirmation_level := CommitmentLevel.Confirmed } :
        BlockInformation) =
        { block_hash := bh, block_height := bht, slot := s,
          confirmation_level := CommitmentLevel.Confirmed } :=
  block_information_new_requires_upstream
    { get_slot_with_commitment := fun _ => Except.ok 100,
      get_latest_blockhash_with_commitment := fun _ => Except.ok ("hash", 50) }
    CommitmentLevel.Confirmed
    { block_hash := "hash", block_height := 50, slot := 100,
      confirmation_level := CommitmentLevel.Confirmed }
    rfl

/-- C10: if an iteration publishes an envelope while the broadcast channel
has zero attached consumers, the `unwrap` on the failed `send`
(context.rs line 199) panics and the dispatcher loop aborts, rather than
dropping the envelope and continuing. -/
theorem send_with_no_receivers_panics (ser : Json → Except String Json)
    (st : DispatcherState) (nt : NotificationType) (now : Nat)
    (subs2 : Subscriptions) (env : LiteRpcNotification)
    (h : processEvent ser st.subscriptions nt now =
      (subs2, Except.ok (some env))) :
    broadcastIteration ser st (Except.ok nt) 0 now =
      ({ st with subscriptions := subs2 }, StepOutcome.panicked sendUnwrapPanic) := by
  simp [broadcastIteration, h]

/-- C10 witness: a matched signature event sent with zero receivers. -/
theorem send_with_no_receivers_panics_witness :
    broadcastIteration serializeOk
        { subscriptions := [(SubscriptionParams.Signature
            { commitment := { commitment := CommitmentLevel.Confirmed },
              signature := "sigS",
              enable_received_notification := false }, 4)],
          context := sampleContext }
        (Except.ok (NotificationType.Signature
          { signature := "sigS", commitment := CommitmentLevel.Confirmed,
            slot := 8, error := none })) 0 0 =
      ({ subscriptions := [(SubscriptionParams.Signature
          { commitment := { commitment := CommitmentLevel.Confirmed },
            signature := "sigS",
            enable_received_notification := false }, 4)],
         context := sampleContext }, StepOutcome.panicked sendUnwrapPanic) :=
  send_with_no_receivers_panics serializeOk
    { subscriptions := [(SubscriptionParams.Signature
        { commitment := { commitment := CommitmentLevel.Confirmed },
          signature := "sigS",
          enable_received_notification := false }, 4)],
      context := sampleContext }
    (NotificationType.Signature
      { signature := "sigS", commitment := CommitmentLevel.Confirmed,
        slot := 8, error := none })
    0
    [(SubscriptionParams.Signature
        { commitment := { commitment := CommitmentLevel.Confirmed },
          signature := "sigS",
          enable_received_notification := false }, 4)]
    { subscription_id := 4, is_final := false,
      json := signatureUpdateJson 8 4, created_at := 0 }
    rfl

/-- Every access in an interleaving comes from one of the two threads. -/
theorem interleave_mem {α : Type} (a : α) :
    ∀ (bs : List Bool) (xs ys : List α), a ∈ interleave bs xs ys → a ∈ xs ∨ a ∈ ys := by
  intro bs
  induction bs with
  | nil =>
      intro xs ys h
      simp only [interleave] at h
      exact List.mem_append.mp h
  | cons b bs ih =>
      intro xs ys h
      cases xs with
      | nil => exact Or.inr (by simpa [interleave] using h)
      | cons x xs =>
          cases ys with
          | nil => exact Or.inl (by simpa [interleave] using h)
          | cons y ys =>
              cases b with
              | true =>
                  simp only [interleave, List.mem_cons] at h
                  rcases h with h | h
                  · exact Or.inl (by simp [h])
                  · rcases ih xs (y :: ys) h with h1 | h1
                    · exact Or.inl (List.mem_cons_of_mem _ h1)
                    · exact Or.inr h1
              | false =>
                  simp only [interleave, List.mem_cons] at h
                  rcases h with h | h
                  · exact Or.inr (by simp [h])
                  · rcases ih (x :: xs) ys h with h1 | h1
                    · exact Or.inl h1
                    · exact Or.inr (List.mem_cons_of_mem _ h1)

/-- Hash provenance through a run of atomic accesses: if the current hash
and every hash ever written satisfy `S`, so does any observed hash. -/
theorem runAccesses_hash_mem (S : String → Prop) :
    ∀ (acts : List BlockAccess) (st : BlockInformation) (acc : ReadAcc),
      S st.block_hash →
      (∀ v, BlockAccess.writeHash v ∈ acts → S v) →
      (∀ s, acc.hash = some s → S s) →
      (S (runAccesses acts st acc).1.block_hash ∧
        ∀ s, (runAccesses acts st acc).2.hash = some s → S s) := by
  intro acts
  induction acts with
  | nil => intro st acc hst _ hacc; exact ⟨hst, hacc⟩
  | cons a rest ih =>
      intro st acc hst hw hacc
      have hw' : ∀ v, BlockAccess.writeHash v ∈ rest → S v :=
        fun v hv => hw v (List.mem_cons_of_mem _ hv)
      cases a with
      | writeHash v =>
          exact ih { st with block_hash := v } acc
            (hw v (List.mem_cons_self _ _)) hw' hacc
      | writeHeight v => exact ih { st with block_height := v } acc hst hw' hacc
      | writeSlot v => exact ih { st with slot := v } acc hst hw' hacc
      | readHash =>
          exact ih st { acc with hash := some st.block_hash } hst hw'
            (fun s hs => Option.some.inj hs ▸ hst)
      | readHeight =>
          exact ih st { acc with height := some st.block_height } hst hw' hacc
      | readSlot =>
          exact ih st { acc with slot := some st.slot } hst hw' hacc

/-- Height provenance through a run of atomic accesses. -/
theorem runAccesses_height_mem (S : Nat → Prop) :
    ∀ (acts : List BlockAccess) (st : BlockInformation) (acc : ReadAcc),
      S st.block_height →
      (∀ v, BlockAccess.writeHeight v ∈ acts → S v) →
      (∀ n, acc.height = some n → S n) →
      (S (runAccesses acts st acc).1.block_height ∧
        ∀ n, (runAccesses acts st acc).2.height = some n → S n) := by
  intro acts
  induction acts with
  | nil => intro st acc hst _ hacc; exact ⟨hst, hacc⟩
  | cons a rest ih =>
      intro st acc hst hw hacc
      have hw' : ∀ v, BlockAccess.writeHeight v ∈ rest → S v :=
        fun v hv => hw v (List.mem_cons_of_mem _ hv)
      cases a with
      | writeHash v => exact ih { st with block_hash := v } acc hst hw' hacc
      | writeHeight v =>
          exact ih { st with block_height := v } acc
            (hw v (List.mem_cons_self _ _)) hw' hacc
      | writeSlot v => exact ih { st with slot := v } acc hst hw' hacc
      | readHash =>
          exact ih st { acc with hash := some st.block_hash } hst hw' hacc
      | readHeight =>
          exact ih st { acc with height := some st.block_height } hst hw'
            (fun n hn => Option.some.inj hn ▸ hst)
      | readSlot =>
          exact ih st { acc with slot := some st.slot } hst hw' hacc

/-- Slot provenance through a run of atomic accesses. -/
theorem runAccesses_slot_mem (S : Nat → Prop) :
    ∀ (acts : List BlockAccess) (st : BlockInformation) (acc : ReadAcc),
      S st.slot →
      (∀ v, BlockAccess.writeSlot v ∈ acts → S v) →
      (∀ n, acc.slot = some n → S n) →
      (S (runAccesses acts st acc).1.slot ∧
        ∀ n, (runAccesses acts st acc).2.slot = some n → S n) := by
  intro acts
  induction acts with
  | nil => intro st acc hst _ hacc; exact ⟨hst, hacc⟩
  | cons a rest ih =>
      intro st acc hst hw hacc
      have hw' : ∀ v, BlockAccess.writeSlot v ∈ rest → S v :=
        fun v hv => hw v (List.mem_cons_of_mem _ hv)
      cases a with
      | writeHash v => exact ih { st with block_hash := v } acc hst hw' hacc
      | writeHeight v => exact ih { st with block_height := v } acc hst hw' hacc
      | writeSlot v =>
          exact ih { st with slot := v } acc
            (hw v (List.mem_cons_self _ _)) hw' hacc
      | readHash =>
          exact ih st { acc with hash := some st.block_hash } hst hw' hacc
      | readHeight =>
          exact ih st { acc with height := some st.block_height } hst hw' hacc
      | readSlot =>
          exact ih st { acc with slot := some st.slot } hst hw'
            (fun n hn => Option.some.inj hn ▸ hst)

/-- C6 counterexample: interleaving one reader with two field-wise updates
yields the snapshot (hash of the first update, height and slot of the
second) — a torn combination matching no single update and not the
initial contents either. -/
theorem torn_read_counterexample :
    observedSnapshot [true, true, true, false, true, true, true]
        blockA blockB blockC =
      { hash := some "h1", height := some 2, slot := some 2 } ∧
    ¬ (({ hash := some "h1", height := some 2, slot := some 2 } : ReadAcc) ∈
        [snapshotRead blockA, snapshotRead blockB, snapshotRead blockC]) :=
  ⟨rfl, by decide⟩

/-- C6 (amended): each field a reader observes was individually written by
one of the updates (or is the initial contents) — the separately
synchronized fields are atomic one by one, but the three observations need
not come from the same update. -/
theorem block_info_fieldwise_provenance (sched : List Bool)
    (init u1 u2 : BlockInformation) :
    (∀ s, (observedSnapshot sched init u1 u2).hash = some s →
      s = init.block_hash ∨ s = u1.block_hash ∨ s = u2.block_hash) ∧
    (∀ n, (observedSnapshot sched init u1 u2).height = some n →
      n = init.block_height ∨ n = u1.block_height ∨ n = u2.block_height) ∧
    (∀ n, (observedSnapshot sched init u1 u2).slot = some n →
      n = init.slot ∨ n = u1.slot ∨ n = u2.slot) := by
  refine ⟨?_, ?_, ?_⟩
  · intro s hs
    refine (runAccesses_hash_mem
      (fun v => v = init.block_hash ∨ v = u1.block_hash ∨ v = u2.block_hash)
      _ init _ (Or.inl rfl) ?_ (fun v hv => Option.noConfusion hv)).2 s hs
    intro v hv
    rcases interleave_mem _ sched _ _ hv with hm | hm
    · rcases List.mem_append.mp hm with hm | hm
      · simp only [updateAccesses, List.mem_cons, List.not_mem_nil, or_false] at hm
        rcases hm with hm | hm | hm
        · exact Or.inr (Or.inl (BlockAccess.writeHash.inj hm))
        · exact absurd hm (by simp)
        · exact absurd hm (by simp)
      · simp only [updateAccesses, List.mem_cons, List.not_mem_nil, or_false] at hm
        rcases hm with hm | hm | hm
        · exact Or.inr (Or.inr (BlockAccess.writeHash.inj hm))
        · exact absurd hm (by simp)
        · exact absurd hm (by simp)
    · simp [readAccesses] at hm
  · intro n hn
    refine (runAccesses_height_mem
      (fun v => v = init.block_height ∨ v = u1.block_height ∨ v = u2.block_height)
      _ init _ (Or.inl rfl) ?_ (fun v hv => Option.noConfusion hv)).2 n hn
    intro v hv
    rcases interleave_mem _ sched _ _ hv with hm | hm
    · rcases List.mem_append.mp hm with hm | hm
      · simp only [updateAccesses, List.mem_cons, List.not_mem_nil, or_false] at hm
        rcases hm with hm | hm | hm
        · exact absurd hm (by simp)
        · exact Or.inr (Or.inl (BlockAccess.writeHeight.inj hm))
        · exact absurd hm (by simp)
      · simp only [updateAccesses, List.mem_cons, List.not_mem_nil, or_false] at hm
        rcases hm with hm | hm | hm
        · exact absurd hm (by simp)
        · exact Or.inr (Or.inr (BlockAccess.writeHeight.inj hm))
        · exact absurd hm (by simp)
    · simp [readAccesses] at hm
  · intro n hn
    refine (runAccesses_slot_mem
      (fun v => v = init.slot ∨ v = u1.slot ∨ v = u2.slot)
      _ init _ (Or.inl rfl) ?_ (fun v hv => Option.noConfusion hv)).2 n hn
    intro v hv
    rcases interleave_mem _ sched _ _ hv with hm | hm
    · rcases List.mem_append.mp hm with hm | hm
      · simp only [updateAccesses, List.mem_cons, List.not_mem_nil, or_false] at hm
        rcases hm with hm | hm | hm
        · exact absurd hm (by simp)
        · exact absurd hm (by simp)
        · exact Or.inr (Or.inl (BlockAccess.writeSlot.inj hm))
      · simp only [updateAccesses, List.mem_cons, List.not_mem_nil, or_false] at hm
        rcases hm with hm | hm | hm
        · exact absurd hm (by simp)
        · exact absurd hm (by simp)
        · exact Or.inr (Or.inr (BlockAccess.writeSlot.inj hm))
    · simp [readAccesses] at hm

/-- C6 witness: the provenance statement applied at the torn schedule; the
observed hash is the one written by the first update. -/
theorem block_info_fieldwise_provenance_witness :
    "h1" = blockA.block_hash ∨ "h1" = blockB.block_hash ∨ "h1" = blockC.block_hash :=
  (block_info_fieldwise_provenance [true, true, true, false, true, true, true]
      blockA blockB blockC).1 "h1" rfl

end LiteRpc
